import Mathlib

/-!
# Verification of the StochasticAI completion adapter

Shallow embedding of `src/langchain/llms/stochasticai.py`.

The Python class `StochasticAI(LLM, BaseModel)` is a pydantic model with a
pre root validator `build_extra` (moves unrecognized constructor fields into
the `model_kwargs` dict), a post root validator `validate_environment`
(resolves the API key from the values dict or the environment variable
`STOCHASTICAI_API_KEY`), and an operation `_call` that POSTs
`{"prompt": ..., "params": model_kwargs}` to `model_id`, extracts
`data.responseUrl` from the response, then polls that URL with GET requests,
sleeping 0.5 s in each loop iteration, until `data.completion` is non-null;
it returns `completion[0]`, truncated at stop tokens when a stop list was
supplied.

Python dicts are embedded as association lists with insertion order and
unique keys; dynamic Python values as the inductive `PyVal`; HTTP responses
as records fed to `_call` as oracles (the response of the one POST, and the
response of the `n`-th GET); the unbounded `while` loop as a fuel-indexed
recursion whose `none` result means the loop did not finish within the given
fuel.  The trace of a call records how many GET requests were issued and how
many 0.5-second sleeps were performed.
-/

/-- A dynamic (JSON-like) Python value, as passed around by the pydantic
validators and placed in request bodies. Numbers are represented as exact
rationals (no arithmetic is ever performed on them). -/
inductive PyVal where
  | str (s : String)
  | num (q : Rat)
  | bool (b : Bool)
  | list (xs : List PyVal)
  | dict (d : List (String × PyVal))
  | none
deriving Repr

/-- Python `d.get(k)`: first binding of `k` in the association list. -/
def dictGet (d : List (String × PyVal)) (k : String) : Option PyVal :=
  match d with
  | [] => Option.none
  | (k', v) :: rest => if k' == k then some v else dictGet rest k

/-- Python `k in d`. -/
def dictHas (d : List (String × PyVal)) (k : String) : Bool :=
  (dictGet d k).isSome

/-- Python `d[k] = v`: replace the binding in place if present, else append. -/
def dictInsert (d : List (String × PyVal)) (k : String) (v : PyVal) :
    List (String × PyVal) :=
  match d with
  | [] => [(k, v)]
  | (k', v') :: rest =>
      if k' == k then (k', v) :: rest else (k', v') :: dictInsert rest k v

/-- Python `d.pop(k)`: the dict with the binding for `k` removed. -/
def dictPop (d : List (String × PyVal)) (k : String) : List (String × PyVal) :=
  match d with
  | [] => []
  | (k', v') :: rest =>
      if k' == k then rest else (k', v') :: dictPop rest k

/-- View a `PyVal` as a dict (`build_extra` reads `values.get("model_kwargs", {})`
and indexes it as a dict; a missing or non-dict value reads as the empty dict). -/
def pyAsDict : Option PyVal → List (String × PyVal)
  | some (PyVal.dict d) => d
  | _ => []

/-- The declared pydantic field names (aliases) of class `StochasticAI` visible
in `src/langchain/llms/stochasticai.py`: `build_extra` computes
`{field.alias for field in cls.__fields__.values()}`.  (Fields inherited from
the `LLM` base class live outside the sources; theorems that depend on the
field set are stated for an arbitrary field list where possible.) -/
def stochasticFields : List String :=
  ["id", "model_id", "models", "pypi_package_deps", "auth_strategy",
   "model_kwargs", "stochasticai_api_key"]

/-- The `for field_name in list(values)` loop of `build_extra`: walk the
snapshot `ks` of the keys of `values`; a key not among the declared field
names is checked against `extra` (`raise ValueError(f"Found {field_name}
supplied twice.")` on a hit), otherwise popped from `values`, inserted into
`extra`, and a warning naming it is logged (accumulated here in order). -/
def buildExtraLoop (fields : List String) :
    List String → List (String × PyVal) → List (String × PyVal) →
    List String →
    Except String (List (String × PyVal) × List (String × PyVal) × List String)
  | [], values, extra, warns => Except.ok (values, extra, warns)
  | k :: ks, values, extra, warns =>
      if fields.contains k then
        buildExtraLoop fields ks values extra warns
      else if dictHas extra k then
        Except.error ("Found " ++ k ++ " supplied twice.")
      else
        match dictGet values k with
        | some v =>
            buildExtraLoop fields ks (dictPop values k)
              (dictInsert extra k v) (warns ++ [k])
        | Option.none =>
            buildExtraLoop fields ks values extra warns

/-- `StochasticAI.build_extra` (pre root validator): move every unrecognized
constructor field into the `model_kwargs` dict, erroring when it duplicates an
existing `model_kwargs` key; returns the updated values dict together with the
names that were warned about. -/
def buildExtra (fields : List String) (values : List (String × PyVal)) :
    Except String (List (String × PyVal) × List String) :=
  let extra := pyAsDict (dictGet values "model_kwargs")
  match buildExtraLoop fields (values.map (fun p => p.1)) values extra [] with
  | Except.error e => Except.error e
  | Except.ok (values', extra', warns) =>
      Except.ok (dictInsert values' "model_kwargs" (PyVal.dict extra'), warns)

/-- Modelled from the spec: `get_from_dict_or_env` (in `langchain/utils.py`,
not part of these sources) resolves the API key as "explicit value, then named
environment variable, then error" — "If no API key is supplied, it is read
from a designated environment variable; absence in both places is a fatal
configuration error raised eagerly, before any network call." -/
def getFromDictOrEnv (explicit : Option String) (env : Option String) :
    Except String String :=
  match explicit with
  | some s => Except.ok s
  | Option.none =>
      match env with
      | some s => Except.ok s
      | Option.none =>
          Except.error
            "Did not find stochasticai_api_key, please add an environment variable STOCHASTICAI_API_KEY which contains it, or pass stochasticai_api_key as a named parameter."

/-- `StochasticAI.validate_environment` (post root validator): store the key
resolved by `get_from_dict_or_env` from the values dict or the environment
variable `STOCHASTICAI_API_KEY`. -/
def validateEnvironment (apiKeyField : Option String) (envVar : Option String) :
    Except String String :=
  getFromDictOrEnv apiKeyField envVar

/-- The configuration object produced by a successful construction: the fields
of `StochasticAI` that `_call` reads. -/
structure StochasticAIConfig where
  model_id : String
  model_kwargs : List (String × PyVal)
  stochasticai_api_key : String
deriving Repr

/-- Read the string stored under `k` in the values dict, if any (used for the
`model_id : str` and `stochasticai_api_key : Optional[str]` fields). -/
def dictGetStr (d : List (String × PyVal)) (k : String) : Option String :=
  match dictGet d k with
  | some (PyVal.str s) => some s
  | _ => Option.none

/-- Construction of a `StochasticAI` object: run `build_extra`, parse the
declared fields, then run `validate_environment` against the environment
variable `STOCHASTICAI_API_KEY` (given as `envVar`).  Returns the constructed
configuration together with the warnings `build_extra` logged. -/
def construct (fields : List String) (envVar : Option String)
    (values : List (String × PyVal)) :
    Except String (StochasticAIConfig × List String) :=
  match buildExtra fields values with
  | Except.error e => Except.error e
  | Except.ok (values', warns) =>
      match dictGetStr values' "model_id" with
      | Option.none => Except.error "model_id: field required"
      | some mid =>
          match validateEnvironment (dictGetStr values' "stochasticai_api_key")
              envVar with
          | Except.error e => Except.error e
          | Except.ok key =>
              Except.ok
                (⟨mid, pyAsDict (dictGet values' "model_kwargs"), key⟩, warns)

/-- The response to the one POST of `_call`.  `responseUrl = none` models a
body that is malformed or lacks the nested `data.responseUrl` field (in the
source, `response_post.json()` or `response_post_json["data"]["responseUrl"]`
raises before any GET request is issued). -/
structure PostResponse where
  status : Nat
  responseUrl : Option String
deriving Repr

/-- The `data` object of a GET poll response body. `completion = none` models
both a JSON `null` and an absent key (`response_get_json.get("completion")`
yields Python `None` in both cases). -/
structure GetData where
  completion : Option (List String)
deriving Repr

/-- The response to the `n`-th GET poll request.  `data = none` models a body
that is malformed or lacks the `"data"` key (`response_get.json()["data"]`
raises). -/
structure GetResponse where
  status : Nat
  data : Option GetData
deriving Repr

/-- `requests.Response.raise_for_status()` raises exactly for client-error and
server-error status codes (400–599). -/
def raiseForStatus (s : Nat) : Bool :=
  decide (400 ≤ s) && decide (s < 600)

/-- The ways a call fails (the spec's TransportError / ProtocolError, plus the
`IndexError` from `text[0]` on an empty completion list). -/
inductive CallError where
  | transportError (status : Nat)
  | protocolError
  | indexError
deriving Repr, DecidableEq

/-- Observable outcome of one `_call`: the returned string or the error, with
the number of GET requests issued and of 0.5-second sleeps performed. -/
structure CallResult where
  outcome : Except CallError String
  gets : Nat
  sleeps : Nat
deriving Repr

/-- The `while not completed` polling loop of `_call`, with `k` GET requests
already issued.  Each iteration: issue the GET (response `getResp k`),
`raise_for_status`, read `["data"]`, read `.get("completion")`, set
`completed`, then `time.sleep(0.5)` — the sleep runs even in the iteration
that finds the completion.  `none` means the loop did not finish within
`fuel` iterations. -/
def pollLoop (getResp : Nat → GetResponse) :
    Nat → Nat → Option (Except CallError (List String) × Nat × Nat)
  | 0, _ => Option.none
  | fuel + 1, k =>
      let r := getResp k
      if raiseForStatus r.status then
        some (Except.error (CallError.transportError r.status), k + 1, k)
      else
        match r.data with
        | Option.none => some (Except.error CallError.protocolError, k + 1, k)
        | some d =>
            match d.completion with
            | some text => some (Except.ok text, k + 1, k + 1)
            | Option.none => pollLoop getResp fuel (k + 1)

/-- Modelled from the spec: `enforce_stop_tokens` (in `langchain/llms/utils.py`,
not part of these sources) truncates the text at the first occurrence of any
stop sequence — "a string that, if found in the generated text, causes
truncation of the output at its first occurrence", the kept text being the
part up to, not including, that occurrence. -/
def enforceStopTokensL : List Char → List (List Char) → List Char
  | [], _ => []
  | c :: cs, stops =>
      if stops.any (fun s => s.isPrefixOf (c :: cs)) then []
      else c :: enforceStopTokensL cs stops

/-- String-level wrapper for `enforceStopTokensL`. -/
def enforce_stop_tokens (text : String) (stop : List String) : String :=
  String.mk (enforceStopTokensL text.toList (stop.map String.toList))

/-- `StochasticAI._call`: `raise_for_status` on the POST response, extract
`data.responseUrl` (its absence raises before the first GET is issued), run
the polling loop, take `text[0]`, and apply `enforce_stop_tokens` exactly when
a stop list was supplied. -/
def callModel (post : PostResponse) (getResp : Nat → GetResponse)
    (stop : Option (List String)) (fuel : Nat) : Option CallResult :=
  if raiseForStatus post.status then
    some ⟨Except.error (CallError.transportError post.status), 0, 0⟩
  else
    match post.responseUrl with
    | Option.none => some ⟨Except.error CallError.protocolError, 0, 0⟩
    | some _ =>
        match pollLoop getResp fuel 0 with
        | Option.none => Option.none
        | some (Except.error e, g, s) => some ⟨Except.error e, g, s⟩
        | some (Except.ok text, g, s) =>
            match text with
            | [] => some ⟨Except.error CallError.indexError, g, s⟩
            | t :: _ =>
                match stop with
                | Option.none => some ⟨Except.ok t, g, s⟩
                | some stopList =>
                    some ⟨Except.ok (enforce_stop_tokens t stopList), g, s⟩

/-- The POST request `_call` sends: URL `model_id`, JSON body
`{"prompt": prompt, "params": model_kwargs}` (the source's
`params = self.model_kwargs or {}` — an empty dict stays empty), and the three
headers. -/
structure PostRequest where
  url : String
  prompt : String
  params : List (String × PyVal)
  headers : List (String × String)
deriving Repr

/-- Build the POST request of `_call` from a constructed configuration. -/
def callRequest (cfg : StochasticAIConfig) (prompt : String) : PostRequest :=
  { url := cfg.model_id
    prompt := prompt
    params := cfg.model_kwargs
    headers := [("apiKey", cfg.stochasticai_api_key),
                ("Accept", "application/json"),
                ("Content-Type", "application/json")] }

/-- GET oracle for the three-attempt scenario: the first two polls report
`completion: null`, the third reports `completion: ["Hello world"]`. -/
def c1Get : Nat → GetResponse := fun n =>
  if n < 2 then ⟨200, some ⟨Option.none⟩⟩
  else ⟨200, some ⟨some ["Hello world"]⟩⟩

/-- GET oracle whose first poll already carries the completion
`["Hello world, goodbye"]`. -/
def c2Get : Nat → GetResponse := fun _ =>
  ⟨200, some ⟨some ["Hello world, goodbye"]⟩⟩

/-- Index of the first position of `t` at which some stop sequence occurs
(`t.length` when none occurs): the spec-side characterization of where
truncation happens. -/
def firstStopOccurrence : List Char → List (List Char) → Nat
  | [], _ => 0
  | c :: cs, stops =>
      if stops.any (fun s => s.isPrefixOf (c :: cs)) then 0
      else firstStopOccurrence cs stops + 1

/-- The `n`-th GET attempt makes the polling loop exit: its response has a
raising status, or a body without the `"data"` object, or a non-null
`completion`. -/
def getAttemptExits (getResp : Nat → GetResponse) (n : Nat) : Prop :=
  raiseForStatus (getResp n).status = true ∨
    (getResp n).data = Option.none ∨
    ∃ d, (getResp n).data = some d ∧ d.completion ≠ Option.none

theorem dictGet_dictInsert_isSome (d : List (String × PyVal)) (a k : String)
    (v : PyVal) (h : (dictGet d k).isSome = true) :
    (dictGet (dictInsert d a v) k).isSome = true := by
  induction d with
  | nil => simp [dictGet] at h
  | cons p rest ih =>
    rcases p with ⟨k', v'⟩
    by_cases hka : (k' == a) = true
    · by_cases hkk : (k' == k) = true
      · simp [dictGet, dictInsert, hka, hkk]
      · simp [dictGet, dictInsert, hka, hkk] at h ⊢
        exact h
    · by_cases hkk : (k' == k) = true
      · simp [dictGet, dictInsert, hka, hkk]
      · simp [dictGet, dictInsert, hka, hkk] at h ⊢
        exact ih h

theorem buildExtraLoop_collision (fields : List String) (k : String)
    (hk : k ∉ fields) :
    ∀ (ks : List String) (values extra : List (String × PyVal))
      (warns : List String), k ∈ ks → dictHas extra k = true →
      ∃ msg, buildExtraLoop fields ks values extra warns = Except.error msg := by
  intro ks
  induction ks with
  | nil => intro values extra warns hmem _; cases hmem
  | cons k' ks ih =>
    intro values extra warns hmem hhas
    by_cases hf : k' ∈ fields
    · rcases List.mem_cons.mp hmem with heq | hmem'
      · exact absurd (heq ▸ hf) hk
      · simpa [buildExtraLoop, hf] using ih values extra warns hmem' hhas
    · by_cases hcol : dictHas extra k' = true
      · exact ⟨"Found " ++ k' ++ " supplied twice.",
          by simp [buildExtraLoop, hf, hcol]⟩
      · rcases List.mem_cons.mp hmem with heq | hmem'
        · rw [← heq, hhas] at hcol; cases hcol rfl
        · cases hg : dictGet values k' with
          | none =>
              simpa [buildExtraLoop, hf, hcol, hg] using
                ih values extra warns hmem' hhas
          | some v =>
              have hhas' : dictHas (dictInsert extra k' v) k = true :=
                dictGet_dictInsert_isSome extra k' k v hhas
              simpa [buildExtraLoop, hf, hcol, hg] using
                ih (dictPop values k') (dictInsert extra k' v)
                  (warns ++ [k']) hmem' hhas'

theorem toList_mk (l : List Char) : (String.mk l).toList = l := rfl

theorem enforceStopTokensL_eq_take (t : List Char) (stops : List (List Char)) :
    enforceStopTokensL t stops = t.take (firstStopOccurrence t stops) := by
  induction t with
  | nil => rfl
  | cons c cs ih =>
    cases h : stops.any (fun s => s.isPrefixOf (c :: cs)) with
    | true => simp [enforceStopTokensL, firstStopOccurrence, h]
    | false => simp [enforceStopTokensL, firstStopOccurrence, h, ih]

theorem firstStopOccurrence_not_before (t : List Char) (stops : List (List Char)) :
    ∀ j < firstStopOccurrence t stops,
      stops.any (fun s => s.isPrefixOf (t.drop j)) = false := by
  induction t with
  | nil => intro j hj; simp [firstStopOccurrence] at hj
  | cons c cs ih =>
    intro j hj
    cases h : stops.any (fun s => s.isPrefixOf (c :: cs)) with
    | true => rw [firstStopOccurrence, if_pos h] at hj; cases hj
    | false =>
      rw [firstStopOccurrence, if_neg (by simp [h])] at hj
      cases j with
      | zero => simpa using h
      | succ j => simpa using ih j (Nat.lt_of_succ_lt_succ hj)

theorem firstStopOccurrence_at_occurrence (t : List Char)
    (stops : List (List Char)) :
    firstStopOccurrence t stops = t.length ∨
      stops.any (fun s => s.isPrefixOf (t.drop (firstStopOccurrence t stops)))
        = true := by
  induction t with
  | nil => left; rfl
  | cons c cs ih =>
    cases h : stops.any (fun s => s.isPrefixOf (c :: cs)) with
    | true =>
      right
      rw [firstStopOccurrence, if_pos h]
      simpa using h
    | false =>
      rw [firstStopOccurrence, if_neg (by simp [h])]
      rcases ih with h1 | h2
      · left; simp [h1]
      · right; simpa using h2

theorem pollLoop_isSome_exits (getResp : Nat → GetResponse) :
    ∀ fuel k, (pollLoop getResp fuel k).isSome = true →
      ∃ n, getAttemptExits getResp n := by
  intro fuel
  induction fuel with
  | zero => intro k h; simp [pollLoop] at h
  | succ fuel ih =>
    intro k h
    cases hst : raiseForStatus (getResp k).status with
    | true => exact ⟨k, Or.inl hst⟩
    | false =>
      cases hd : (getResp k).data with
      | none => exact ⟨k, Or.inr (Or.inl hd)⟩
      | some d =>
        cases hc : d.completion with
        | some text => exact ⟨k, Or.inr (Or.inr ⟨d, hd, by simp [hc]⟩)⟩
        | none =>
          apply ih (k + 1)
          simpa [pollLoop, hst, hd, hc] using h

theorem pollLoop_exits_isSome (getResp : Nat → GetResponse) :
    ∀ fuel k j, j < fuel → getAttemptExits getResp (k + j) →
      (pollLoop getResp fuel k).isSome = true := by
  intro fuel
  induction fuel with
  | zero => intro k j hj _; exact absurd hj (Nat.not_lt_zero j)
  | succ fuel ih =>
    intro k j hj hex
    cases hst : raiseForStatus (getResp k).status with
    | true => simp [pollLoop, hst]
    | false =>
      cases hd : (getResp k).data with
      | none => simp [pollLoop, hst, hd]
      | some d =>
        cases hc : d.completion with
        | some text => simp [pollLoop, hst, hd, hc]
        | none =>
          cases j with
          | zero =>
            rcases hex with h1 | h2 | ⟨d', hd', hc'⟩
            · rw [Nat.add_zero, hst] at h1; cases h1
            · rw [Nat.add_zero, hd] at h2; cases h2
            · rw [Nat.add_zero, hd] at hd'
              cases hd'
              exact absurd hc hc'
          | succ j =>
            have hshift : k + (j + 1) = (k + 1) + j := by omega
            have := ih (k + 1) j (Nat.lt_of_succ_lt_succ hj) (hshift ▸ hex)
            simpa [pollLoop, hst, hd, hc] using this

theorem pollLoop_never_completes (getResp : Nat → GetResponse)
    (h : ∀ n, raiseForStatus (getResp n).status = false ∧
        (getResp n).data = some ⟨Option.none⟩) :
    ∀ fuel k, pollLoop getResp fuel k = Option.none := by
  intro fuel
  induction fuel with
  | zero => intro k; rfl
  | succ fuel ih =>
    intro k
    simpa [pollLoop, (h k).1, (h k).2] using ih (k + 1)

/-- C1 counterexample: in the two-null-then-ready scenario the call does
return "Hello world" after exactly three GETs, but it performs three
0.5-second sleeps, not the two the claim states — `time.sleep(0.5)` runs in
every loop iteration, including the one that finds the completion. -/
theorem C1_counterexample :
    callModel ⟨200, some "https://poll"⟩ c1Get Option.none 10
      = some ⟨Except.ok "Hello world", 3, 3⟩ ∧
    ¬ Option.map CallResult.sleeps
        (callModel ⟨200, some "https://poll"⟩ c1Get Option.none 10) = some 2 := by
  exact ⟨rfl, by decide⟩

/-- C1 (amended): given two polls with `completion: null` followed by one with
`completion: ["Hello world"]`, the call issues exactly three GET requests,
performs a 0.5-second sleep after every attempt including the final one
(3 sleeps, so at least 1.5 seconds elapse), and returns "Hello world", for
any remaining fuel. -/
theorem C1_three_gets_three_sleeps (fuel : Nat) :
    callModel ⟨200, some "https://poll"⟩ c1Get Option.none (fuel + 3)
      = some ⟨Except.ok "Hello world", 3, 3⟩ := rfl

/-- C2: when the first poll already carries the completion `t :: rest`, the
call with a stop list returns `enforce_stop_tokens t stops`, which is the
prefix of `t` up to, not including, the first position where any stop
sequence occurs (no stop sequence occurs earlier, and at that position one
occurs unless it is the end of the text); without a stop list the completion
is returned untruncated; concretely, stop `["world"]` truncates
"Hello world, goodbye" to "Hello ". -/
theorem C2_stop_truncation (post : PostResponse) (getResp : Nat → GetResponse)
    (u t : String) (rest : List String) (stops : List String) (fuel : Nat)
    (hpost : raiseForStatus post.status = false)
    (hurl : post.responseUrl = some u)
    (hst : raiseForStatus (getResp 0).status = false)
    (hget : (getResp 0).data = some ⟨some (t :: rest)⟩) :
    callModel post getResp (some stops) (fuel + 1)
        = some ⟨Except.ok (enforce_stop_tokens t stops), 1, 1⟩ ∧
    callModel post getResp Option.none (fuel + 1)
        = some ⟨Except.ok t, 1, 1⟩ ∧
    (enforce_stop_tokens t stops).toList
        = t.toList.take (firstStopOccurrence t.toList (stops.map String.toList)) ∧
    (∀ j < firstStopOccurrence t.toList (stops.map String.toList),
        (stops.map String.toList).any
          (fun s => s.isPrefixOf (t.toList.drop j)) = false) ∧
    (firstStopOccurrence t.toList (stops.map String.toList) = t.toList.length ∨
        (stops.map String.toList).any (fun s => s.isPrefixOf
          (t.toList.drop
            (firstStopOccurrence t.toList (stops.map String.toList)))) = true) ∧
    enforce_stop_tokens "Hello world, goodbye" ["world"] = "Hello " := by
  refine ⟨?_, ?_, ?_, ?_, ?_, rfl⟩
  · simp [callModel, pollLoop, hpost, hurl, hst, hget]
  · simp [callModel, pollLoop, hpost, hurl, hst, hget]
  · rw [enforce_stop_tokens, toList_mk, enforceStopTokensL_eq_take]
  · exact firstStopOccurrence_not_before t.toList (stops.map String.toList)
  · exact firstStopOccurrence_at_occurrence t.toList (stops.map String.toList)

/-- C2 witness: the concrete scenario — first poll carries
`["Hello world, goodbye"]`, stop list `["world"]` truncates to "Hello ". -/
theorem C2_stop_truncation_witness :
    callModel ⟨200, some "https://poll"⟩ c2Get (some ["world"]) 1
      = some ⟨Except.ok (enforce_stop_tokens "Hello world, goodbye" ["world"]),
          1, 1⟩ ∧
    enforce_stop_tokens "Hello world, goodbye" ["world"] = "Hello " :=
  ⟨(C2_stop_truncation ⟨200, some "https://poll"⟩ c2Get "https://poll"
      "Hello world, goodbye" [] ["world"] 0 rfl rfl rfl rfl).1, rfl⟩

/-- C3 counterexample: the claimed invariant fails — a declared field name
("model_id") supplied as a key of `model_kwargs` is NOT rejected: construction
succeeds and the constructed object carries the collision, because
`build_extra` only inspects constructor keys outside the declared field set. -/
theorem C3_counterexample :
    construct stochasticFields (some "envkey")
        [("model_id", PyVal.str "u"),
         ("model_kwargs", PyVal.dict [("model_id", PyVal.str "x")]),
         ("stochasticai_api_key", PyVal.str "k")]
      = Except.ok (⟨"u", [("model_id", PyVal.str "x")], "k"⟩, []) ∧
    stochasticFields.contains "model_id" = true ∧
    dictHas [("model_id", PyVal.str "x")] "model_id" = true :=
  ⟨rfl, rfl, rfl⟩

/-- C3 (amended): a duplicate-name collision is rejected exactly between
unrecognized constructor fields and the extras map: for every constructor
input in which some name outside the declared field set appears both as a
top-level constructor key and as a key of the supplied `model_kwargs` dict,
`build_extra` (and hence construction) fails with a configuration error; a
declared field name may appear as a `model_kwargs` key without error. -/
theorem C3_unrecognized_collision_rejected (fields : List String)
    (values extra0 : List (String × PyVal)) (k : String)
    (hk : k ∉ fields)
    (hmk : dictGet values "model_kwargs" = some (PyVal.dict extra0))
    (hmem : k ∈ values.map (fun p => p.1))
    (hhas : dictHas extra0 k = true) :
    ∃ msg, buildExtra fields values = Except.error msg := by
  obtain ⟨msg, hmsg⟩ := buildExtraLoop_collision fields k hk
    (values.map (fun p => p.1)) values extra0 [] hmem hhas
  exact ⟨msg, by simp [buildExtra, hmk, pyAsDict, hmsg]⟩

/-- C3 witness: the unrecognized field "foo" supplied both at top level and
as a `model_kwargs` key makes `build_extra` fail. -/
theorem C3_unrecognized_collision_rejected_witness :
    ∃ msg, buildExtra stochasticFields
        [("model_id", PyVal.str "u"), ("foo", PyVal.num 1),
         ("model_kwargs", PyVal.dict [("foo", PyVal.num 2)])]
      = Except.error msg :=
  C3_unrecognized_collision_rejected stochasticFields
    [("model_id", PyVal.str "u"), ("foo", PyVal.num 1),
     ("model_kwargs", PyVal.dict [("foo", PyVal.num 2)])]
    [("foo", PyVal.num 2)] "foo" (by decide) rfl (by decide) rfl

/-- C4: constructing with an unrecognized field "foo" while `model_kwargs`
already contains the key "foo" fails with the error "Found foo supplied
twice." — whatever the environment variable holds — so no client object is
produced. -/
theorem C4_duplicate_foo_rejected (envVar : Option String) :
    construct stochasticFields envVar
        [("model_id", PyVal.str "u"), ("foo", PyVal.num 1),
         ("model_kwargs", PyVal.dict [("foo", PyVal.num 1)])]
      = Except.error "Found foo supplied twice." := rfl

/-- C5: API-key resolution — with no explicit key and no environment value,
construction fails with a configuration error (construction performs no
network operation: `construct` is built from the validators only); an
explicitly supplied key always wins over the environment variable. -/
theorem C5_api_key_resolution :
    validateEnvironment Option.none Option.none
        = Except.error "Did not find stochasticai_api_key, please add an environment variable STOCHASTICAI_API_KEY which contains it, or pass stochasticai_api_key as a named parameter." ∧
    (∀ key envVar, validateEnvironment (some key) envVar = Except.ok key) ∧
    construct stochasticFields Option.none [("model_id", PyVal.str "u")]
        = Except.error "Did not find stochasticai_api_key, please add an environment variable STOCHASTICAI_API_KEY which contains it, or pass stochasticai_api_key as a named parameter." ∧
    construct stochasticFields (some "env-secret")
        [("model_id", PyVal.str "u"),
         ("stochasticai_api_key", PyVal.str "explicit-secret")]
        = Except.ok (⟨"u", [], "explicit-secret"⟩, []) :=
  ⟨rfl, fun _ _ => rfl, rfl, rfl⟩

/-- C6: a POST response with a raising HTTP status (400–599, e.g. 500) fails
the call immediately with a transport error: zero GET requests are issued and
no retry occurs, for every poll oracle, stop list and fuel. -/
theorem C6_post_failure_no_gets (post : PostResponse)
    (getResp : Nat → GetResponse) (stop : Option (List String)) (fuel : Nat)
    (h : raiseForStatus post.status = true) :
    callModel post getResp stop fuel
      = some ⟨Except.error (CallError.transportError post.status), 0, 0⟩ := by
  simp [callModel, h]

/-- C6 witness: POST status 500 fails the call with zero GETs. -/
theorem C6_post_failure_no_gets_witness :
    callModel ⟨500, some "https://poll"⟩ (fun _ => ⟨200, some ⟨Option.none⟩⟩)
        Option.none 5
      = some ⟨Except.error (CallError.transportError 500), 0, 0⟩ :=
  C6_post_failure_no_gets ⟨500, some "https://poll"⟩
    (fun _ => ⟨200, some ⟨Option.none⟩⟩) Option.none 5 rfl

/-- C7: a successfully received submission response whose body lacks the
nested `data.responseUrl` field (or is malformed) fails the call with a
protocol error before any GET request is issued, for every poll oracle, stop
list and fuel. -/
theorem C7_missing_responseUrl_no_gets (post : PostResponse)
    (getResp : Nat → GetResponse) (stop : Option (List String)) (fuel : Nat)
    (hok : raiseForStatus post.status = false)
    (hurl : post.responseUrl = Option.none) :
    callModel post getResp stop fuel
      = some ⟨Except.error CallError.protocolError, 0, 0⟩ := by
  simp [callModel, hok, hurl]

/-- C7 witness: a 200 POST response without a poll URL yields a protocol
error and zero GETs. -/
theorem C7_missing_responseUrl_no_gets_witness :
    callModel ⟨200, Option.none⟩ (fun _ => ⟨200, some ⟨Option.none⟩⟩)
        Option.none 5
      = some ⟨Except.error CallError.protocolError, 0, 0⟩ :=
  C7_missing_responseUrl_no_gets ⟨200, Option.none⟩
    (fun _ => ⟨200, some ⟨Option.none⟩⟩) Option.none 5 rfl rfl

/-- C8: the unrecognized constructor field `temperature = 0.5` (not colliding
with an extras key) is folded into `model_kwargs` with a warning naming it,
and every call's POST request carries it in the body's params, so that
`params.temperature == 0.5`. -/
theorem C8_temperature_to_model_kwargs :
    construct stochasticFields (some "envkey")
        [("model_id", PyVal.str "u"), ("temperature", PyVal.num (1/2))]
      = Except.ok (⟨"u", [("temperature", PyVal.num (1/2))], "envkey"⟩,
          ["temperature"]) ∧
    (∀ prompt,
      dictGet (callRequest ⟨"u", [("temperature", PyVal.num (1/2))], "envkey"⟩
          prompt).params "temperature" = some (PyVal.num (1/2)) ∧
      (callRequest ⟨"u", [("temperature", PyVal.num (1/2))], "envkey"⟩
          prompt).prompt = prompt ∧
      (callRequest ⟨"u", [("temperature", PyVal.num (1/2))], "envkey"⟩
          prompt).url = "u") :=
  ⟨rfl, fun _ => ⟨rfl, rfl, rfl⟩⟩

/-- C9: the polling loop terminates (for some fuel) exactly when some GET
attempt exits it — a raising status, a body without the `"data"` object, or a
non-null completion; when every GET succeeds with a well-formed body and the
completion never appears, the loop runs forever (diverges for every fuel):
there is no timeout and no maximum attempt count. -/
theorem C9_poll_termination (getResp : Nat → GetResponse) :
    ((∃ fuel, (pollLoop getResp fuel 0).isSome = true) ↔
        ∃ n, getAttemptExits getResp n) ∧
    ((∀ n, raiseForStatus (getResp n).status = false ∧
        (getResp n).data = some ⟨Option.none⟩) →
      ∀ fuel, pollLoop getResp fuel 0 = Option.none) := by
  constructor
  · constructor
    · rintro ⟨fuel, h⟩
      exact pollLoop_isSome_exits getResp fuel 0 h
    · rintro ⟨n, hex⟩
      exact ⟨n + 1, pollLoop_exits_isSome getResp (n + 1) 0 n
        (Nat.lt_succ_self n) (by simpa using hex)⟩
  · intro h fuel
    exact pollLoop_never_completes getResp h fuel 0

/-- C9 witness: with every poll returning 200 and `completion: null`, the
loop is still running after any concrete amount of fuel. -/
theorem C9_poll_termination_witness :
    pollLoop (fun _ => ⟨200, some ⟨Option.none⟩⟩) 7 0 = Option.none :=
  (C9_poll_termination (fun _ => ⟨200, some ⟨Option.none⟩⟩)).2
    (fun _ => ⟨rfl, rfl⟩) 7

/-- C10: a poll response whose completion field is present but an empty list
makes the loop exit after that GET (one GET, one sleep), and the call then
fails with an indexing error from `text[0]` instead of returning a string or
polling further. -/
theorem C10_empty_completion_index_error (post : PostResponse)
    (getResp : Nat → GetResponse) (u : String) (stop : Option (List String))
    (fuel : Nat)
    (hpost : raiseForStatus post.status = false)
    (hurl : post.responseUrl = some u)
    (hst : raiseForStatus (getResp 0).status = false)
    (hget : (getResp 0).data = some ⟨some []⟩) :
    callModel post getResp stop (fuel + 1)
      = some ⟨Except.error CallError.indexError, 1, 1⟩ := by
  simp [callModel, pollLoop, hpost, hurl, hst, hget]

/-- C10 witness: concrete empty-completion scenario. -/
theorem C10_empty_completion_index_error_witness :
    callModel ⟨200, some "https://poll"⟩ (fun _ => ⟨200, some ⟨some []⟩⟩)
        Option.none 1
      = some ⟨Except.error CallError.indexError, 1, 1⟩ :=
  C10_empty_completion_index_error ⟨200, some "https://poll"⟩
    (fun _ => ⟨200, some ⟨some []⟩⟩) "https://poll" Option.none 0
    rfl rfl rfl rfl
